import Mathlib

/-!
Shallow embedding of the go-links authorization and transfer-token core
(`src/server/src/modules/links/handlers.py`), together with theorems
checking the specification's claims against it.

Conventions:
* user and link ids are `Int` (Python ints);
* fallible store lookups are `Except Unit (Option _)`: `.error ()` models the
  lookup raising, `.ok none` models "no such record";
* a Python `dict` payload field that may be absent is an `Option`:
  `none` models a missing key (`KeyError` on access);
* handler outcomes are explicit (`RedeemResult`), with an `uncaught`
  constructor for exceptions that escape the handler unhandled.
-/

/-- A user record, as described by the data model: `id`, `email` (ownership
key), `organization`, and the organization-scoped `is_admin` flag. -/
structure User where
  id : Int
  email : String
  organization : String
  admin : Bool
deriving DecidableEq, Repr

/-- A shortlink record: `id`, `owner` (denormalized email), `organization`,
`shortpath`, `destination_url`, `created`, `visits_count`. -/
structure ShortLink where
  id : Int
  owner : String
  organization : String
  shortpath : String
  destination_url : String
  created : String
  visits_count : Nat
deriving DecidableEq, Repr

/-- The external stores visible to the handlers: link lookup by id (which may
raise), user lookup by id, user lookup by email, and the next fresh user id
used when a user record is lazily materialized. -/
structure Store where
  linkGet : Int → Except Unit (Option ShortLink)
  usersById : Int → Option User
  userByEmail : String → Option User
  nextUserId : Int

/-- Modelled from the spec: `lookup_user(id) -> User | absent`
(`modules.users.helpers.get_user_by_id` is not under `src/`). -/
def get_user_by_id (st : Store) (uid : Int) : Option User :=
  st.usersById uid

/-- Modelled from the spec: `is_admin` is a boolean on the user record, scoped
to its organization (`modules.users.helpers.is_user_admin` is not under
`src/`). -/
def is_user_admin (u : User) : Bool :=
  u.admin

/-- Python truthiness of an optional integer argument: `None` and `0` are
falsy, every other int is truthy. -/
def pyTruthy : Option Int → Bool
  | none => false
  | some n => n != 0

/-- Lines 52-55 of `handlers.py`: resolve the acting user — `get_user_by_id`
when `user_id` is truthy, else the session's `current_user`. -/
def resolvedActor (st : Store) (current_user : User) (user_id : Option Int) : Option User :=
  if pyTruthy user_id then get_user_by_id st (user_id.getD 0) else some current_user

/-- Outcome of `check_mutate_authorization`: the Python function returns the
link record (truthy) when authorized, `False` when denied, and raises an
`AttributeError` when a truthy `user_id` resolves to no user (accessing
`user.email` on `None`). -/
inductive MutAuthResult where
  | authorized (link : ShortLink)
  | denied
  | pyError
deriving DecidableEq, Repr

/-- Function `check_mutate_authorization(link_id, user_id=None)` (lines 51-71): a
raising or empty link lookup yields `denied` (returns `False`); otherwise the
actor is authorized iff they own the link or are an admin of the link's
organization. The source resolves the actor before the link lookup; actor
resolution itself cannot fail (a missing record only surfaces later, at the
`user.email` attribute access), so the two commute and the lookup is matched
first here. -/
def check_mutate_authorization (st : Store) (current_user : User)
    (link_id : Int) (user_id : Option Int) : MutAuthResult :=
  match st.linkGet link_id with
  | .error _ => .denied
  | .ok none => .denied
  | .ok (some existing_link) =>
    match resolvedActor st current_user user_id with
    | none => .pyError
    | some user =>
      if existing_link.owner ≠ user.email ∧
          ¬ (user.organization = existing_link.organization ∧ is_user_admin user = true) then
        .denied
      else
        .authorized existing_link

/-- Python `s.startswith(p)`. -/
def pyStartsWith (s p : String) : Bool :=
  p.toList.isPrefixOf s.toList

/-- Python string slicing `s[n:]`. -/
def pyDrop (s : String) (n : Nat) : String :=
  ⟨s.toList.drop n⟩

/-- Decimal value of a nonempty digit string; `none` on a non-digit. -/
def digitsValAux : List Char → Nat → Option Nat
  | [], acc => some acc
  | c :: cs, acc =>
    if c.isDigit then digitsValAux cs (acc * 10 + (c.toNat - 48)) else none

/-- Decimal value of a digit string; `none` when empty or any non-digit. -/
def digitsVal (ds : List Char) : Option Nat :=
  if ds.isEmpty then none else digitsValAux ds 0

/-- Python `int(s)` on a string: optional sign followed by decimal digits;
`none` models the `ValueError` raised for everything else. (The whitespace
and underscore forms Python also accepts are not modelled; `create_transfer_link`
only ever emits bare decimal subjects.) -/
def pyIntStr (s : String) : Option Int :=
  match s.toList with
  | '-' :: ds => (digitsVal ds).map (fun v => -(v : Int))
  | '+' :: ds => (digitsVal ds).map (fun v => (v : Int))
  | ds => (digitsVal ds).map (fun v => (v : Int))

/-- The decoded JWT claim set built by `create_transfer_link`
(lines 157-161): `sub`, `tp` (token permission), `o` (issued owner id) and
`by` (issuer id; named `byClaim` here since `by` is reserved in Lean).
`none` models the key being absent from the dict — accessing it raises
`KeyError`. A present JSON `null` in `by` behaves exactly like `0` in the
truthiness test at line 52 and is not modelled separately. The `exp` claim is
consumed by the JWT layer and carried on `TokenWire`, not here. -/
structure Payload where
  sub : Option String
  tp : Option String
  o : Option Int
  byClaim : Option Int
deriving DecidableEq, Repr

/-- Outcome of the `use_transfer_link` handler: `accepted` carries the link
as persisted (HTTP 201), `rejected` carries the internally logged reason and
the user-facing message passed to `abort(403, ...)`, and `uncaught` models an
exception that escapes the handler unhandled (HTTP 500). -/
inductive RedeemResult where
  | accepted (link : ShortLink)
  | rejected (internal userMsg : String)
  | uncaught (exn : String)
deriving DecidableEq, Repr

/-- Line 195/227 fallback message. -/
def genericTransferMsg : String := "Your transfer link is no longer valid"

/-- Line 189 message for an expired token. -/
def expiredTransferMsg : String := "Your transfer link has expired"

/-- Line 211 message when the owner snapshot is stale. -/
def ownerChangedUserMsg (l : ShortLink) : String :=
  "The owner of go/" ++ l.shortpath ++ " has changed since your transfer link was created"

/-- Line 216 message when the issuer has lost mutate rights. -/
def issuerLostUserMsg (l : ShortLink) : String :=
  "The user who created your transfer link no longer has edit rights for go/" ++ l.shortpath

/-- The store after `link.put()`: the link record is replaced at its id;
nothing else changes. -/
def putLink (st : Store) (link_id : Int) (l : ShortLink) : Store :=
  { st with linkGet := fun i => if i = link_id then .ok (some l) else st.linkGet i }

/-- The body of `use_transfer_link` after a successful `jwt.decode`
(lines 197-232): the validation chain over the decoded payload, in source
order. `InvalidTransferToken` and `KeyError` are caught and become 403
rejections; the `ValueError` from `int(...)` at line 204, a raising link
lookup at line 205, and the `AttributeError` from `check_mutate_authorization`
dereferencing a missing issuer are not caught and escape. -/
def use_transfer_link_payload (st : Store) (current_user : User) (p : Payload) :
    RedeemResult × Store :=
  match p.sub with
  | none => (.rejected "KeyError: sub" genericTransferMsg, st)
  | some sub =>
    if pyStartsWith sub "link:" = false then
      (.rejected "Subject is not link" genericTransferMsg, st)
    else
      match p.tp with
      | none => (.rejected "KeyError: tp" genericTransferMsg, st)
      | some tp =>
        if tp ≠ "transfer" then
          (.rejected "Invalid token permission" genericTransferMsg, st)
        else
          match pyIntStr (pyDrop sub 5) with
          | none => (.uncaught "ValueError: invalid literal for int", st)
          | some link_id =>
            match st.linkGet link_id with
            | .error _ => (.uncaught "unhandled link lookup error", st)
            | .ok none => (.rejected "Link does not exist" genericTransferMsg, st)
            | .ok (some link) =>
              match p.o with
              | none => (.rejected "KeyError: o" genericTransferMsg, st)
              | some oid =>
                match get_user_by_id st oid with
                | none =>
                  (.rejected "Owner from token does not match current owner"
                    (ownerChangedUserMsg link), st)
                | some owner_from_token =>
                  if link.owner ≠ owner_from_token.email then
                    (.rejected "Owner from token does not match current owner"
                      (ownerChangedUserMsg link), st)
                  else
                  match p.byClaim with
                  | none => (.rejected "KeyError: by" genericTransferMsg, st)
                  | some byId =>
                    match check_mutate_authorization st current_user link_id (some byId) with
                    | .denied =>
                      (.rejected "Token from unauthorized user" (issuerLostUserMsg link), st)
                    | .pyError => (.uncaught "AttributeError: NoneType has no attribute email", st)
                    | .authorized _ =>
                      if current_user.organization ≠ link.organization then
                        (.rejected "Current user does not match link's organization"
                          genericTransferMsg, st)
                      else
                        let link2 : ShortLink := { link with owner := current_user.email }
                        (.accepted link2, putLink st link_id link2)

/-- A presented token after the transport layer: either structurally
malformed (PyJWT `DecodeError`), or a signed claim set. Whether the HMAC-SHA256
signature verifies against the server secret is abstracted to the boolean
`sigValid` — the cryptography lives in the external `jwt` library. `exp` is
the token's expiry claim (absent means PyJWT skips the expiry check). -/
inductive TokenWire where
  | malformed
  | signed (payload : Payload) (exp : Option Int) (sigValid : Bool)
deriving DecidableEq, Repr

/-- Outcome of `jwt.decode` (line 182). -/
inductive DecodeOutcome where
  | ok (p : Payload)
  | expiredSig
  | invalidSig
  | malformedTok
deriving DecidableEq, Repr

/-- PyJWT `jwt.decode(token, secret, 'HS256')`: a malformed token raises
`DecodeError`; otherwise the signature is verified first
(`InvalidSignatureError`), and only then the claims — `exp` strictly in the
past raises `ExpiredSignatureError`. -/
def jwt_decode (w : TokenWire) (now : Int) : DecodeOutcome :=
  match w with
  | .malformed => .malformedTok
  | .signed p exp sigValid =>
    if sigValid = false then .invalidSig
    else
      match exp with
      | some e => if e < now then .expiredSig else .ok p
      | none => .ok p

/-- The full `use_transfer_link` handler (lines 174-232): decode the token,
mapping `ExpiredSignatureError` to a 403 whose message mentions expiry and
`InvalidSignatureError`/`DecodeError` to the uniform generic 403 (lines
185-195), then run the validation chain on the decoded payload. -/
def use_transfer_link (st : Store) (current_user : User) (w : TokenWire)
    (now : Int) : RedeemResult × Store :=
  match jwt_decode w now with
  | .expiredSig => (.rejected "ExpiredSignatureError" expiredTransferMsg, st)
  | .invalidSig => (.rejected "InvalidSignatureError" genericTransferMsg, st)
  | .malformedTok => (.rejected "DecodeError" genericTransferMsg, st)
  | .ok p => use_transfer_link_payload st current_user p

/-- Modelled from the spec: `lookup_or_create_user(email, organization) ->
User` (`modules.users.helpers.get_or_create_user` is not under `src/`):
return the existing record for `email`, or lazily materialize one with a
fresh id in the given organization (a newly materialized record is not an
admin). -/
def get_or_create_user (st : Store) (email org : String) : User × Store :=
  match st.userByEmail email with
  | some u => (u, st)
  | none =>
    let u : User := ⟨st.nextUserId, email, org, false⟩
    (u, { st with
          usersById := fun i => if i = st.nextUserId then some u else st.usersById i,
          userByEmail := fun e => if e = email then some u else st.userByEmail e,
          nextUserId := st.nextUserId + 1 })

/-- Line 155. -/
def TOKEN_DURATION_IN_HOURS : Int := 24

/-- The `create_transfer_link` route (lines 151-167) including its
`link_mutation_permission_required` decorator (lines 37-48): `none` models
the decorator's `abort(403)`. On success it returns the claim set of the
issued token (lines 157-161), the `exp` claim (`utcnow() + 24h`, with time in
seconds), and the store as left by the lazy owner materialization. The
base64url wrapping of the signed token (line 165) is the transport codec,
modelled separately below. -/
def create_transfer_link (st : Store) (current_user : User) (link_id : Int)
    (now : Int) : Option (Payload × Int × Store) :=
  match check_mutate_authorization st current_user link_id none with
  | .authorized link =>
    let ous := get_or_create_user st link.owner link.organization
    some ({ sub := some ("link:" ++ toString link_id),
            tp := some "transfer",
            o := some ous.1.id,
            byClaim := some current_user.id },
          now + TOKEN_DURATION_IN_HOURS * 3600,
          ous.2)
  | _ => none

/-- Fixture: a regular (non-admin) user who owns the fixture link. -/
def alice : User := ⟨10, "alice@co", "co", false⟩

/-- Fixture: a regular user in the same organization, not the owner. -/
def bob : User := ⟨11, "bob@co", "co", false⟩

/-- Fixture: a shortlink owned by `alice` in organization `co`. -/
def linkA : ShortLink := ⟨1, "alice@co", "co", "wiki", "https://wiki.example.com", "2020-01-01", 0⟩

/-- Fixture: a store holding `linkA`, `alice` and `bob`. -/
def st0 : Store :=
  { linkGet := fun i => if i = 1 then .ok (some linkA) else .ok none,
    usersById := fun i =>
      if i = 10 then some alice else if i = 11 then some bob else none,
    userByEmail := fun e =>
      if e = "alice@co" then some alice else if e = "bob@co" then some bob else none,
    nextUserId := 12 }

/-- Fixture: the claim set of a transfer token for `linkA` with owner
snapshot and issuer both `alice` (as `create_transfer_link` would issue when
`alice` requests a transfer link for her own link). -/
def tokenPayload : Payload := ⟨some "link:1", some "transfer", some 10, some 10⟩

/-- Fixture: a token for `linkA` whose issuer claim references `bob`, who
holds no mutate rights on it. -/
def revokedIssuerPayload : Payload := ⟨some "link:1", some "transfer", some 10, some 11⟩

/-- Fixture: a token for `linkA` whose issuer claim is the falsy id `0`. -/
def falsyIssuerPayload : Payload := ⟨some "link:1", some "transfer", some 10, some 0⟩

/-- The base64url alphabet: index 0-25 ↦ `A`-`Z`, 26-51 ↦ `a`-`z`,
52-61 ↦ `0`-`9`, 62 ↦ `-`, 63 ↦ `_`. -/
def sextetChar (n : Nat) : Char :=
  if n < 26 then Char.ofNat (65 + n)
  else if n < 52 then Char.ofNat (97 + (n - 26))
  else if n < 62 then Char.ofNat (48 + (n - 52))
  else if n = 62 then '-'
  else '_'

/-- Inverse of the base64url alphabet; `none` for a character outside it. -/
def charSextet (c : Char) : Option Nat :=
  if 65 ≤ c.toNat ∧ c.toNat ≤ 90 then some (c.toNat - 65)
  else if 97 ≤ c.toNat ∧ c.toNat ≤ 122 then some (26 + (c.toNat - 97))
  else if 48 ≤ c.toNat ∧ c.toNat ≤ 57 then some (52 + (c.toNat - 48))
  else if c = '-' then some 62
  else if c = '_' then some 63
  else none

/-- Python `base64.urlsafe_b64encode`: 3-byte groups become 4 alphabet characters; a
trailing 1- or 2-byte group becomes 2 or 3 characters followed by `==` or
`=`. -/
def urlsafe_b64encode : List Nat → List Char
  | [] => []
  | [b1] => [sextetChar (b1 / 4), sextetChar (b1 % 4 * 16), '=', '=']
  | [b1, b2] => [sextetChar (b1 / 4), sextetChar (b1 % 4 * 16 + b2 / 16),
      sextetChar (b2 % 16 * 4), '=']
  | b1 :: b2 :: b3 :: rest =>
    sextetChar (b1 / 4) :: sextetChar (b1 % 4 * 16 + b2 / 16) ::
      sextetChar (b2 % 16 * 4 + b3 / 64) :: sextetChar (b3 % 64) ::
      urlsafe_b64encode rest

/-- Python `.strip('=')` (line 165): remove `=` from both ends. -/
def pyStripEq (s : List Char) : List Char :=
  ((s.dropWhile (fun c => c = '=')).reverse.dropWhile (fun c => c = '=')).reverse

/-- Line 180: `token + '=' * (4 - len(token) % 4)` — note that a length that
is already a multiple of 4 gets four `=` characters appended. -/
def padToken (s : List Char) : List Char :=
  s ++ List.replicate (4 - s.length % 4) '='

/-- CPython `binascii.a2b_base64` in its default non-strict mode (as called by
`base64.urlsafe_b64decode`), checked against CPython 3: alphabet characters
accumulate into 4-character groups, each emitting 3 bytes; a `=` terminates
decoding, emitting 0, 1 or 2 bytes from the current partial group (padding
and anything after it is ignored — `b64decode(b'QUJD====') == b'ABC'`,
`b64decode(b'====') == b''`, `b64decode(b'QQ==QQ==') == b'A'`); a partial
group of one character before `=`, or leftover characters at the end of
input, raise `binascii.Error` (`none`). Non-alphabet characters are
discarded. -/
def b64decodeAux : List Char → List Nat → Option (List Nat)
  | [], pending => if pending.isEmpty then some [] else none
  | c :: rest, pending =>
    if c = '=' then
      match pending with
      | [] => some []
      | [s1, s2] => some [s1 * 4 + s2 / 16]
      | [s1, s2, s3] => some [s1 * 4 + s2 / 16, s2 % 16 * 16 + s3 / 4]
      | _ => none
    else
      match charSextet c with
      | none => b64decodeAux rest pending
      | some v =>
        match pending with
        | [s1, s2, s3] =>
          (b64decodeAux rest []).map
            (fun tl => (s1 * 4 + s2 / 16) :: (s2 % 16 * 16 + s3 / 4) :: (s3 % 4 * 64 + v) :: tl)
        | _ => b64decodeAux rest (pending ++ [v])

/-- Python `base64.urlsafe_b64decode` on the padded token (line 182). -/
def urlsafe_b64decode (s : List Char) : Option (List Nat) :=
  b64decodeAux s []

/-- The padding-free part of the encoding: `urlsafe_b64encode` without its
trailing `=` characters. -/
def b64NoPad : List Nat → List Char
  | [] => []
  | [b1] => [sextetChar (b1 / 4), sextetChar (b1 % 4 * 16)]
  | [b1, b2] => [sextetChar (b1 / 4), sextetChar (b1 % 4 * 16 + b2 / 16),
      sextetChar (b2 % 16 * 4)]
  | b1 :: b2 :: b3 :: rest =>
    sextetChar (b1 / 4) :: sextetChar (b1 % 4 * 16 + b2 / 16) ::
      sextetChar (b2 % 16 * 4 + b3 / 64) :: sextetChar (b3 % 64) ::
      b64NoPad rest

/-- Number of `=` padding characters the encoder appends. -/
def b64PadLen (n : Nat) : Nat :=
  (3 - n % 3) % 3

/-- C1: for every link `L` and resolvable actor `A`, the mutation
authorization check returns the link (authorized) iff `A.email = L.owner` or
(`A.organization = L.organization` and `A` is an admin); it returns denied in
every other case, including when the link is absent or the lookup raises. -/
theorem check_mutate_authorization_spec (st : Store) (cu A : User)
    (link_id : Int) (user_id : Option Int)
    (hA : resolvedActor st cu user_id = some A) :
    (∀ L, check_mutate_authorization st cu link_id user_id = .authorized L ↔
      (st.linkGet link_id = .ok (some L) ∧
        (A.email = L.owner ∨ (A.organization = L.organization ∧ A.admin = true)))) ∧
    ((st.linkGet link_id = .error () ∨ st.linkGet link_id = .ok none) →
      check_mutate_authorization st cu link_id user_id = .denied) := by
  constructor
  · intro L
    unfold check_mutate_authorization
    cases hL : st.linkGet link_id with
    | error e => simp
    | ok o =>
      cases o with
      | none => simp
      | some l =>
        rw [hA]
        simp only [is_user_admin, Except.ok.injEq, Option.some.injEq]
        by_cases hc : l.owner ≠ A.email ∧ ¬ (A.organization = l.organization ∧ A.admin = true)
        · rw [if_pos hc]
          constructor
          · intro h; cases h
          · rintro ⟨rfl, hAuth⟩
            rcases hc with ⟨hOwn, hAdm⟩
            rcases hAuth with h1 | h2
            · exact absurd h1.symm hOwn
            · exact absurd h2 hAdm
        · rw [if_neg hc]
          push_neg at hc
          constructor
          · intro h
            injection h with h
            subst h
            refine ⟨rfl, ?_⟩
            by_cases hOwn : l.owner = A.email
            · exact Or.inl hOwn.symm
            · exact Or.inr (hc hOwn)
          · rintro ⟨rfl, -⟩
            rfl
  · intro h
    unfold check_mutate_authorization
    rcases h with h | h <;> rw [h]

/-- C1 witness: the owner of the fixture link is authorized to mutate it. -/
theorem check_mutate_authorization_spec_witness :
    check_mutate_authorization st0 alice 1 none = .authorized linkA :=
  ((check_mutate_authorization_spec st0 alice alice 1 none rfl).1 linkA).mpr ⟨rfl, Or.inl rfl⟩

/-- C4: the claim fails on the code — a signature-valid, unexpired token whose
`sub` claim is `"link:abc"` passes `jwt.decode` and both guard checks, and
then `int(payload['sub'][len('link:'):])` at line 204 raises a `ValueError`
that the `except (InvalidTransferToken, KeyError)` clause at line 222 does not
catch, so the exception escapes the handler instead of becoming a 403. -/
theorem redemption_uncaught_valueerror :
    (use_transfer_link st0 alice
        (.signed ⟨some "link:abc", some "transfer", some 10, some 10⟩ (some 100) true) 0).1 =
      .uncaught "ValueError: invalid literal for int" := by decide

/-- C5: the claim fails on the code at exactly the subject shape it singles
out — a `"link:"` prefix followed by a non-integer: redemption raises an
uncaught `ValueError` (HTTP 500) rather than the claimed `Rejected(invalid)`
403 with the generic message. -/
theorem subject_nonint_uncaught_valueerror :
    (use_transfer_link_payload st0 alice
        ⟨some "link:12x", some "transfer", some 10, some 10⟩).1 =
      .uncaught "ValueError: invalid literal for int" ∧
    ∀ internal userMsg,
      (use_transfer_link_payload st0 alice
          ⟨some "link:12x", some "transfer", some 10, some 10⟩).1 ≠
        .rejected internal userMsg := by
  have hval : (use_transfer_link_payload st0 alice
      ⟨some "link:12x", some "transfer", some 10, some 10⟩).1 =
      .uncaught "ValueError: invalid literal for int" := by decide
  refine ⟨hval, fun internal userMsg h => ?_⟩
  rw [hval] at h
  exact RedeemResult.noConfusion h

/-- C6 counterexample: a token that is both expired and carries an invalid
signature is rejected with the uniform generic message, not the expiry
message — PyJWT verifies the signature before validating `exp`, so the claim's
"regardless of signature validity" fails. -/
theorem expired_invalid_sig_generic_cex :
    (use_transfer_link st0 alice (.signed ⟨none, none, none, none⟩ (some 0) false) 100).1 =
      .rejected "InvalidSignatureError" genericTransferMsg ∧
    genericTransferMsg ≠ expiredTransferMsg := by decide

/-- C6 (amended): every token with a *valid* signature whose `expires_at` is
in the past is rejected as expired, regardless of its claims, and the
user-facing message explicitly mentions expiry (unlike the generic message
used for malformed or badly signed tokens). -/
theorem expired_valid_sig_rejected (st : Store) (cu : User) (p : Payload)
    (e now : Int) (h : e < now) :
    use_transfer_link st cu (.signed p (some e) true) now =
      (.rejected "ExpiredSignatureError" expiredTransferMsg, st) := by
  unfold use_transfer_link jwt_decode
  simp [h]

/-- C6 witness: a concrete expired, validly signed token. -/
theorem expired_valid_sig_rejected_witness :
    use_transfer_link st0 alice (.signed ⟨none, none, none, none⟩ (some 5) true) 6 =
      (.rejected "ExpiredSignatureError" expiredTransferMsg, st0) :=
  expired_valid_sig_rejected st0 alice ⟨none, none, none, none⟩ 5 6 (by decide)

/-- Inversion of an `accepted` redemption: every validation step of the chain
must have passed, the accepted link is the stored link with only its owner
replaced by the redeeming user's email, and the resulting store is the
original with exactly that link persisted. -/
theorem use_transfer_link_payload_accepted_inv (st : Store) (cu : User) (p : Payload)
    (L : ShortLink) (st' : Store)
    (h : use_transfer_link_payload st cu p = (.accepted L, st')) :
    ∃ s n L0 oid ou byId,
      p.sub = some s ∧ pyStartsWith s "link:" = true ∧
      p.tp = some "transfer" ∧
      pyIntStr (pyDrop s 5) = some n ∧
      st.linkGet n = .ok (some L0) ∧
      p.o = some oid ∧ get_user_by_id st oid = some ou ∧ L0.owner = ou.email ∧
      p.byClaim = some byId ∧
      (∃ L1, check_mutate_authorization st cu n (some byId) = .authorized L1) ∧
      cu.organization = L0.organization ∧
      L = { L0 with owner := cu.email } ∧ st' = putLink st n L := by
  obtain ⟨psub, ptp, po, pby⟩ := p
  cases psub with
  | none => exact absurd h (by simp [use_transfer_link_payload])
  | some s =>
  cases hpre : pyStartsWith s "link:" with
  | false => exact absurd h (by simp [use_transfer_link_payload, hpre])
  | true =>
  cases ptp with
  | none => exact absurd h (by simp [use_transfer_link_payload, hpre])
  | some tp =>
  by_cases htp : tp = "transfer"
  case neg => exact absurd h (by simp [use_transfer_link_payload, hpre, htp])
  subst htp
  cases hn : pyIntStr (pyDrop s 5) with
  | none => exact absurd h (by simp [use_transfer_link_payload, hpre, hn])
  | some n =>
  cases hL : st.linkGet n with
  | error e => exact absurd h (by simp [use_transfer_link_payload, hpre, hn, hL])
  | ok o =>
  cases o with
  | none => exact absurd h (by simp [use_transfer_link_payload, hpre, hn, hL])
  | some L0 =>
  cases po with
  | none => exact absurd h (by simp [use_transfer_link_payload, hpre, hn, hL])
  | some oid =>
  cases hou : get_user_by_id st oid with
  | none => exact absurd h (by simp [use_transfer_link_payload, hpre, hn, hL, hou])
  | some ou =>
  by_cases howner : L0.owner = ou.email
  case neg => exact absurd h (by simp [use_transfer_link_payload, hpre, hn, hL, hou, howner])
  cases pby with
  | none => exact absurd h (by simp [use_transfer_link_payload, hpre, hn, hL, hou, howner])
  | some byId =>
  cases hck : check_mutate_authorization st cu n (some byId) with
  | denied => exact absurd h (by simp [use_transfer_link_payload, hpre, hn, hL, hou, howner, hck])
  | pyError => exact absurd h (by simp [use_transfer_link_payload, hpre, hn, hL, hou, howner, hck])
  | authorized L1 =>
  by_cases horg : cu.organization = L0.organization
  case neg =>
    exact absurd h (by simp [use_transfer_link_payload, hpre, hn, hL, hou, howner, hck, horg])
  have h2 : ((.accepted { L0 with owner := cu.email }, putLink st n { L0 with owner := cu.email }) :
      RedeemResult × Store) = (.accepted L, st') := by
    rw [← h]
    simp [use_transfer_link_payload, hpre, hn, hL, hou, howner, hck, horg]
  have hL2 : L = { L0 with owner := cu.email } := by
    have := congrArg Prod.fst h2
    simp only [] at this
    injection this with this
    exact this.symm
  have hst2 : st' = putLink st n L := by
    have := congrArg Prod.snd h2
    simp only [] at this
    rw [← this, hL2]
  exact ⟨s, n, L0, oid, ou, byId, rfl, hpre, rfl, hn, hL, rfl, hou, howner, rfl,
    ⟨L1, hck⟩, horg, hL2, hst2⟩

/-- C2 counterexample: when the snapshot owner herself performs the first
accepted redemption, the owner field keeps its value, so a second redemption
of the very same token is accepted again — not rejected as owner-changed. -/
theorem second_redemption_accepted_cex :
    (use_transfer_link_payload st0 alice tokenPayload).1 = .accepted linkA ∧
    ((use_transfer_link_payload (use_transfer_link_payload st0 alice tokenPayload).2
        bob tokenPayload).1 = .accepted { linkA with owner := "bob@co" }) := by decide

/-- C2 (amended): after a first accepted redemption by a user whose email
differs from that of the user referenced by the token's issued-owner snapshot,
any second redemption attempt of the same decoded token is rejected with the
owner-changed reason, never accepted. (The restriction is forced by the
counterexample: when the first redeemer's email equals the snapshot owner's
email the owner field is unchanged and the token stays redeemable.) -/
theorem replay_rejected_owner_changed (st : Store) (u1 u2 : User) (p : Payload)
    (L : ShortLink) (st' : Store)
    (hfirst : use_transfer_link_payload st u1 p = (.accepted L, st'))
    (hdiff : ∀ oid ou, p.o = some oid → get_user_by_id st oid = some ou →
      u1.email ≠ ou.email) :
    (use_transfer_link_payload st' u2 p).1 =
      .rejected "Owner from token does not match current owner" (ownerChangedUserMsg L) := by
  obtain ⟨s, n, L0, oid, ou, byId, hsub, hpre, htp, hn, hL, ho, hou, hown, hby,
    hck, horg, hL2, hst2⟩ := use_transfer_link_payload_accepted_inv st u1 p L st' hfirst
  subst hst2
  subst hL2
  have hne : u1.email ≠ ou.email := hdiff oid ou ho hou
  have hou2 : st.usersById oid = some ou := hou
  simp [use_transfer_link_payload, putLink, get_user_by_id, hsub, hpre, htp, hn,
    ho, hby, hou2, hne]

/-- C2 witness: `bob` (whose email differs from the snapshot owner's) redeems
first; a later attempt by `alice` is rejected with the owner-changed reason. -/
theorem replay_rejected_owner_changed_witness :
    (use_transfer_link_payload (putLink st0 1 { linkA with owner := "bob@co" })
        alice tokenPayload).1 =
      .rejected "Owner from token does not match current owner"
        (ownerChangedUserMsg { linkA with owner := "bob@co" }) :=
  replay_rejected_owner_changed st0 bob alice tokenPayload
    { linkA with owner := "bob@co" } (putLink st0 1 { linkA with owner := "bob@co" })
    (by rfl)
    (fun oid ou h1 h2 => by
      have h1' : some (10 : Int) = some oid := h1
      injection h1' with h1'
      subst h1'
      have h2' : some alice = some ou := h2
      injection h2' with h2'
      subst h2'
      decide)

/-- C3: for a token whose earlier validation steps all pass (subject parses,
permission is `transfer`, the link exists, the owner snapshot matches), if the
issuing user referenced by the `by` claim no longer holds mutate rights on the
link's current state — not the owner and not an admin of its organization —
redemption is rejected with the issuer-unauthorized reason, not accepted. -/
theorem issuer_revocation_rejected (st : Store) (cu : User) (p : Payload)
    (s : String) (n oid byId : Int) (L : ShortLink) (ou issuer : User)
    (hsub : p.sub = some s) (hpre : pyStartsWith s "link:" = true)
    (htp : p.tp = some "transfer")
    (hn : pyIntStr (pyDrop s 5) = some n)
    (hL : st.linkGet n = .ok (some L))
    (ho : p.o = some oid) (hou : get_user_by_id st oid = some ou)
    (hown : L.owner = ou.email)
    (hby : p.byClaim = some byId) (hbyt : byId ≠ 0)
    (hiss : get_user_by_id st byId = some issuer)
    (hrev : issuer.email ≠ L.owner ∧
      ¬ (issuer.organization = L.organization ∧ issuer.admin = true)) :
    use_transfer_link_payload st cu p =
      (.rejected "Token from unauthorized user" (issuerLostUserMsg L), st) := by
  have hiss2 : st.usersById byId = some issuer := hiss
  have hcheck : check_mutate_authorization st cu n (some byId) = .denied := by
    unfold check_mutate_authorization
    rw [hL]
    have hAct : resolvedActor st cu (some byId) = some issuer := by
      simp [resolvedActor, pyTruthy, bne_iff_ne, hbyt, get_user_by_id, hiss2]
    rw [hAct]
    exact if_pos ⟨fun hh => hrev.1 hh.symm, fun hc => hrev.2 ⟨hc.1, hc.2⟩⟩
  have hou2 : st.usersById oid = some ou := hou
  simp [use_transfer_link_payload, get_user_by_id, hsub, hpre, htp, hn, hL, ho,
    hby, hou2, hown, hcheck]

/-- C3 witness: a token issued by `bob`, who is neither the owner nor an
admin, is rejected as issuer-unauthorized. -/
theorem issuer_revocation_rejected_witness :
    use_transfer_link_payload st0 alice revokedIssuerPayload =
      (.rejected "Token from unauthorized user" (issuerLostUserMsg linkA), st0) :=
  issuer_revocation_rejected st0 alice revokedIssuerPayload "link:1" 1 10 11 linkA alice bob
    rfl rfl rfl rfl rfl rfl rfl rfl rfl (by decide) rfl ⟨by decide, by decide⟩

/-- C9: an accepted redemption returns a link whose owner is the redeeming
user's email and whose every other field (id, organization, shortpath,
destination_url, created, visits_count) equals the stored link's, persists
exactly that link at its id, and changes nothing else in the store. -/
theorem redemption_accepted_frame (st : Store) (cu : User) (p : Payload)
    (L : ShortLink) (st' : Store)
    (h : use_transfer_link_payload st cu p = (.accepted L, st')) :
    ∃ n L0, st.linkGet n = .ok (some L0) ∧
      L.owner = cu.email ∧
      L.id = L0.id ∧ L.organization = L0.organization ∧ L.shortpath = L0.shortpath ∧
      L.destination_url = L0.destination_url ∧ L.created = L0.created ∧
      L.visits_count = L0.visits_count ∧
      st'.linkGet n = .ok (some L) ∧
      (∀ m, m ≠ n → st'.linkGet m = st.linkGet m) ∧
      st'.usersById = st.usersById ∧ st'.userByEmail = st.userByEmail := by
  obtain ⟨s, n, L0, oid, ou, byId, hsub, hpre, htp, hn, hL, ho, hou, hown, hby,
    hck, horg, hL2, hst2⟩ := use_transfer_link_payload_accepted_inv st cu p L st' h
  subst hst2
  subst hL2
  refine ⟨n, L0, hL, rfl, rfl, rfl, rfl, rfl, rfl, rfl, ?_, ?_, rfl, rfl⟩
  · simp [putLink]
  · intro m hm
    simp [putLink, hm]

/-- C9 witness: `bob` redeems the fixture token; the persisted link is `linkA`
with only the owner replaced by `bob`'s email. -/
theorem redemption_accepted_frame_witness :
    use_transfer_link_payload st0 bob tokenPayload =
      (.accepted { linkA with owner := "bob@co" },
        putLink st0 1 { linkA with owner := "bob@co" }) ∧
    ∃ n L0, st0.linkGet n = .ok (some L0) ∧
      ({ linkA with owner := "bob@co" } : ShortLink).owner = bob.email ∧
      ({ linkA with owner := "bob@co" } : ShortLink).id = L0.id ∧
      ({ linkA with owner := "bob@co" } : ShortLink).organization = L0.organization ∧
      ({ linkA with owner := "bob@co" } : ShortLink).shortpath = L0.shortpath ∧
      ({ linkA with owner := "bob@co" } : ShortLink).destination_url = L0.destination_url ∧
      ({ linkA with owner := "bob@co" } : ShortLink).created = L0.created ∧
      ({ linkA with owner := "bob@co" } : ShortLink).visits_count = L0.visits_count ∧
      (putLink st0 1 { linkA with owner := "bob@co" }).linkGet n =
        .ok (some { linkA with owner := "bob@co" }) ∧
      (∀ m, m ≠ n →
        (putLink st0 1 { linkA with owner := "bob@co" }).linkGet m = st0.linkGet m) ∧
      (putLink st0 1 { linkA with owner := "bob@co" }).usersById = st0.usersById ∧
      (putLink st0 1 { linkA with owner := "bob@co" }).userByEmail = st0.userByEmail :=
  ⟨by rfl,
    redemption_accepted_frame st0 bob tokenPayload { linkA with owner := "bob@co" }
      (putLink st0 1 { linkA with owner := "bob@co" }) (by rfl)⟩

/-- C10: when the token's `by` (issuer) claim is present but falsy, the
authorization check falls back to the session user, so the issuer
re-authorization step is evaluated against the redeeming user: for any token
whose earlier steps pass and whose `by` claim is `0`, if the redeeming user
themself holds mutate rights the issuer step passes, and redemption proceeds
to the organization check (accepted when it matches, cross-organization
rejection otherwise). -/
theorem falsy_issuer_claim_checks_redeemer (st : Store) (cu : User) (p : Payload)
    (s : String) (n oid : Int) (L : ShortLink) (ou : User)
    (hsub : p.sub = some s) (hpre : pyStartsWith s "link:" = true)
    (htp : p.tp = some "transfer")
    (hn : pyIntStr (pyDrop s 5) = some n)
    (hL : st.linkGet n = .ok (some L))
    (ho : p.o = some oid) (hou : get_user_by_id st oid = some ou)
    (hown : L.owner = ou.email)
    (hby : p.byClaim = some 0)
    (hrights : L.owner = cu.email ∨ (cu.organization = L.organization ∧ cu.admin = true)) :
    (∀ lid : Int, check_mutate_authorization st cu lid (some 0) =
      check_mutate_authorization st cu lid none) ∧
    use_transfer_link_payload st cu p =
      (if cu.organization = L.organization then
        (.accepted { L with owner := cu.email }, putLink st n { L with owner := cu.email })
      else
        (.rejected "Current user does not match link's organization" genericTransferMsg, st)) := by
  have hcheck : check_mutate_authorization st cu n (some 0) = .authorized L := by
    unfold check_mutate_authorization
    rw [hL]
    have hAct : resolvedActor st cu (some 0) = some cu := rfl
    rw [hAct]
    show (if L.owner ≠ cu.email ∧
        ¬ (cu.organization = L.organization ∧ is_user_admin cu = true) then
      MutAuthResult.denied else .authorized L) = .authorized L
    rw [if_neg]
    rintro ⟨hc1, hc2⟩
    rcases hrights with hr | hr
    · exact hc1 hr
    · exact hc2 ⟨hr.1, hr.2⟩
  refine ⟨fun lid => rfl, ?_⟩
  have hou2 : st.usersById oid = some ou := hou
  by_cases horg : cu.organization = L.organization
  · rw [if_pos horg]
    simp [use_transfer_link_payload, get_user_by_id, hsub, hpre, htp, hn, hL, ho,
      hby, hou2, hown, hcheck, horg]
  · rw [if_neg horg]
    simp [use_transfer_link_payload, get_user_by_id, hsub, hpre, htp, hn, hL, ho,
      hby, hou2, hown, hcheck, horg]

/-- C10 witness: `alice` (the owner, hence holding mutate rights) redeems a
token whose issuer claim is `0`; the issuer step is checked against her and
passes. -/
theorem falsy_issuer_claim_checks_redeemer_witness :
    (∀ lid : Int, check_mutate_authorization st0 alice lid (some 0) =
      check_mutate_authorization st0 alice lid none) ∧
    use_transfer_link_payload st0 alice falsyIssuerPayload =
      (if alice.organization = linkA.organization then
        (.accepted { linkA with owner := alice.email },
          putLink st0 1 { linkA with owner := alice.email })
      else
        (.rejected "Current user does not match link's organization" genericTransferMsg, st0)) :=
  falsy_issuer_claim_checks_redeemer st0 alice falsyIssuerPayload "link:1" 1 10 linkA alice
    rfl rfl rfl rfl rfl rfl rfl rfl rfl (Or.inl rfl)

/-- C8: for every link and acting user passing the mutation authorization
gate, issuance builds exactly the claim set `sub = "link:" + link_id`,
`tp = "transfer"`, `exp = now + 24h`, `by = acting user's id`, and `o` = the
id of the (lazily materialized) user record for the link's current owner
email, which is afterwards resolvable by that email. -/
theorem create_transfer_link_claim_set (st : Store) (cu : User) (link_id now : Int)
    (L : ShortLink)
    (hgate : check_mutate_authorization st cu link_id none = .authorized L) :
    ∃ p e st', create_transfer_link st cu link_id now = some (p, e, st') ∧
      p.sub = some ("link:" ++ toString link_id) ∧
      p.tp = some "transfer" ∧
      e = now + 24 * 3600 ∧
      p.byClaim = some cu.id ∧
      ∃ ou, p.o = some ou.id ∧ st'.userByEmail L.owner = some ou := by
  unfold create_transfer_link
  rw [hgate]
  refine ⟨_, _, _, rfl, rfl, rfl, rfl, rfl, ?_⟩
  unfold get_or_create_user
  cases hu : st.userByEmail L.owner with
  | some u => exact ⟨u, rfl, hu⟩
  | none =>
    refine ⟨⟨st.nextUserId, L.owner, L.organization, false⟩, rfl, ?_⟩
    simp

/-- C8 witness: `alice` issues a transfer token for her own link. -/
theorem create_transfer_link_claim_set_witness :
    ∃ p e st', create_transfer_link st0 alice 1 0 = some (p, e, st') ∧
      p.sub = some ("link:" ++ toString (1 : Int)) ∧
      p.tp = some "transfer" ∧
      e = 0 + 24 * 3600 ∧
      p.byClaim = some alice.id ∧
      ∃ ou, p.o = some ou.id ∧ st'.userByEmail linkA.owner = some ou :=
  create_transfer_link_claim_set st0 alice 1 0 linkA (by decide)

/-- Induction on a byte list in steps of three, following the encoder's
grouping. -/
theorem threeStep {P : List Nat → Prop} (h0 : P []) (h1 : ∀ b, P [b])
    (h2 : ∀ b c, P [b, c])
    (h3 : ∀ b c d rest, P rest → P (b :: c :: d :: rest)) :
    ∀ bs, P bs
  | [] => h0
  | [b] => h1 b
  | [b, c] => h2 b c
  | b :: c :: d :: rest => h3 b c d rest (threeStep h0 h1 h2 h3 rest)

/-- The alphabet tables are mutually inverse on sextets. -/
theorem charSextet_sextetChar : ∀ n, n < 64 → charSextet (sextetChar n) = some n := by
  decide

/-- No alphabet character is the padding character. -/
theorem sextetChar_ne_pad : ∀ n, n < 64 → sextetChar n ≠ '=' := by
  decide

/-- The encoder output is its padding-free part followed by its padding. -/
theorem urlsafe_b64encode_split : ∀ bs : List Nat,
    urlsafe_b64encode bs = b64NoPad bs ++ List.replicate (b64PadLen bs.length) '=' := by
  refine threeStep rfl (fun b => rfl) (fun b c => rfl) ?_
  intro b c d rest ih
  have hpl : b64PadLen (b :: c :: d :: rest).length = b64PadLen rest.length := by
    simp only [List.length_cons, b64PadLen]
    omega
  show sextetChar (b / 4) :: sextetChar (b % 4 * 16 + c / 16) ::
      sextetChar (c % 16 * 4 + d / 64) :: sextetChar (d % 64) :: urlsafe_b64encode rest = _
  rw [ih, hpl]
  simp [b64NoPad]

/-- The padding-free encoding of genuine bytes contains no `=`. -/
theorem b64NoPad_no_pad : ∀ bs : List Nat, (∀ b ∈ bs, b < 256) →
    '=' ∉ b64NoPad bs := by
  refine threeStep ?_ ?_ ?_ ?_
  · intro _
    simp [b64NoPad]
  · intro b h
    have hb : b < 256 := h b (by simp)
    have h1 := sextetChar_ne_pad (b / 4) (by omega)
    have h2 := sextetChar_ne_pad (b % 4 * 16) (by omega)
    simp [b64NoPad, Ne.symm h1, Ne.symm h2]
  · intro b c h
    have hb : b < 256 := h b (by simp)
    have hc : c < 256 := h c (by simp)
    have h1 := sextetChar_ne_pad (b / 4) (by omega)
    have h2 := sextetChar_ne_pad (b % 4 * 16 + c / 16) (by omega)
    have h3 := sextetChar_ne_pad (c % 16 * 4) (by omega)
    simp [b64NoPad, Ne.symm h1, Ne.symm h2, Ne.symm h3]
  · intro b c d rest ih h
    have hb : b < 256 := h b (by simp)
    have hc : c < 256 := h c (by simp)
    have hd : d < 256 := h d (by simp)
    have h1 := sextetChar_ne_pad (b / 4) (by omega)
    have h2 := sextetChar_ne_pad (b % 4 * 16 + c / 16) (by omega)
    have h3 := sextetChar_ne_pad (c % 16 * 4 + d / 64) (by omega)
    have h4 := sextetChar_ne_pad (d % 64) (by omega)
    have ih2 := ih (fun x hx => h x (by simp [hx]))
    simp [b64NoPad, Ne.symm h1, Ne.symm h2, Ne.symm h3, Ne.symm h4, ih2]

/-- Dropping `=` from the front of a run of `=` continues past the run. -/
theorem dropWhileEq_replicate_append (k : Nat) (l : List Char) :
    List.dropWhile (fun c => c = '=') (List.replicate k '=' ++ l) =
      List.dropWhile (fun c => c = '=') l := by
  induction k with
  | zero => simp
  | succ k ih => simp [List.replicate_succ, List.dropWhile_cons, ih]

/-- Dropping `=` from a list not containing it is the identity. -/
theorem dropWhileEq_of_not_mem (l : List Char) (h : '=' ∉ l) :
    List.dropWhile (fun c => c = '=') l = l := by
  induction l with
  | nil => rfl
  | cons a l ih =>
    have ha : ¬ (a = '=') := fun hh => h (by simp [hh])
    have hl : '=' ∉ l := fun hh => h (by simp [hh])
    simp [List.dropWhile_cons, ha, ih hl]

/-- Stripping `=` from a padding-free string with trailing padding recovers
the string. -/
theorem pyStripEq_append (xs : List Char) (k : Nat) (h : '=' ∉ xs) :
    pyStripEq (xs ++ List.replicate k '=') = xs := by
  unfold pyStripEq
  cases xs with
  | nil =>
    have h0 : List.dropWhile (fun c => c = '=') (List.replicate k '=' ++ ([] : List Char)) =
        List.dropWhile (fun c => c = '=') ([] : List Char) :=
      dropWhileEq_replicate_append k []
    simp only [List.append_nil] at h0
    rw [List.nil_append, h0]
    rfl
  | cons a xs =>
    have ha : ¬ (a = '=') := fun hh => h (by simp [hh])
    have hxs : '=' ∉ xs := fun hh => h (by simp [hh])
    have hrev : '=' ∉ xs.reverse ++ [a] := by
      intro hmem
      rcases List.mem_append.mp hmem with hm | hm
      · exact hxs (List.mem_reverse.mp hm)
      · simp only [List.mem_singleton] at hm
        exact ha hm.symm
    rw [List.cons_append]
    rw [show List.dropWhile (fun c => c = '=') (a :: (xs ++ List.replicate k '=')) =
      a :: (xs ++ List.replicate k '=') from by simp [List.dropWhile_cons, ha]]
    rw [List.reverse_cons, List.reverse_append, List.reverse_replicate, List.append_assoc]
    rw [dropWhileEq_replicate_append]
    rw [dropWhileEq_of_not_mem _ hrev]
    rw [List.reverse_append, List.reverse_reverse]
    rfl

/-- Decoding the padding-free encoding re-padded by `padToken`'s rule
(including four `=` when the length is a multiple of 4) recovers the bytes. -/
theorem b64decodeAux_noPad : ∀ bs : List Nat, (∀ b ∈ bs, b < 256) →
    b64decodeAux (b64NoPad bs ++
      List.replicate (4 - (b64NoPad bs).length % 4) '=') [] = some bs := by
  refine threeStep ?_ ?_ ?_ ?_
  · intro _
    rfl
  · intro b h
    have hb : b < 256 := h b (by simp)
    have h1 : b / 4 < 64 := by omega
    have h2 : b % 4 * 16 < 64 := by omega
    have hc1 := charSextet_sextetChar _ h1
    have hc2 := charSextet_sextetChar _ h2
    have hn1 := sextetChar_ne_pad _ h1
    have hn2 := sextetChar_ne_pad _ h2
    simp [b64NoPad, b64decodeAux, hc1, hc2, hn1, hn2]
    omega
  · intro b c h
    have hb : b < 256 := h b (by simp)
    have hc : c < 256 := h c (by simp)
    have h1 : b / 4 < 64 := by omega
    have h2 : b % 4 * 16 + c / 16 < 64 := by omega
    have h3 : c % 16 * 4 < 64 := by omega
    have hc1 := charSextet_sextetChar _ h1
    have hc2 := charSextet_sextetChar _ h2
    have hc3 := charSextet_sextetChar _ h3
    have hn1 := sextetChar_ne_pad _ h1
    have hn2 := sextetChar_ne_pad _ h2
    have hn3 := sextetChar_ne_pad _ h3
    simp [b64NoPad, b64decodeAux, hc1, hc2, hc3, hn1, hn2, hn3]
    constructor
    · omega
    · omega
  · intro b c d rest ih h
    have hb : b < 256 := h b (by simp)
    have hc : c < 256 := h c (by simp)
    have hd : d < 256 := h d (by simp)
    have h1 : b / 4 < 64 := by omega
    have h2 : b % 4 * 16 + c / 16 < 64 := by omega
    have h3 : c % 16 * 4 + d / 64 < 64 := by omega
    have h4 : d % 64 < 64 := by omega
    have hc1 := charSextet_sextetChar _ h1
    have hc2 := charSextet_sextetChar _ h2
    have hc3 := charSextet_sextetChar _ h3
    have hc4 := charSextet_sextetChar _ h4
    have hn1 := sextetChar_ne_pad _ h1
    have hn2 := sextetChar_ne_pad _ h2
    have hn3 := sextetChar_ne_pad _ h3
    have hn4 := sextetChar_ne_pad _ h4
    have ih2 := ih (fun x hx => h x (by simp [hx]))
    have hlen : 4 - (b64NoPad (b :: c :: d :: rest)).length % 4 =
        4 - (b64NoPad rest).length % 4 := by
      simp only [b64NoPad, List.length_cons]
      omega
    rw [hlen]
    show b64decodeAux (sextetChar (b / 4) :: sextetChar (b % 4 * 16 + c / 16) ::
      sextetChar (c % 16 * 4 + d / 64) :: sextetChar (d % 64) ::
      (b64NoPad rest ++ List.replicate (4 - (b64NoPad rest).length % 4) '=')) [] =
      some (b :: c :: d :: rest)
    simp [b64decodeAux, hc1, hc2, hc3, hc4, hn1, hn2, hn3, hn4, ih2]
    refine ⟨by omega, by omega, by omega⟩

/-- C7: for every byte string, the transport encoding used by
`create_transfer_link` (base64url-encode, then strip all `=`) followed by the
decoding used by `use_transfer_link` (append `'=' * (4 - len % 4)`, then
base64url-decode) recovers exactly the original bytes — including the case
where the stripped length is a multiple of 4 and four `=` are appended. -/
theorem transport_encoding_roundtrip (bs : List Nat) (h : ∀ b ∈ bs, b < 256) :
    urlsafe_b64decode (padToken (pyStripEq (urlsafe_b64encode bs))) = some bs := by
  rw [urlsafe_b64encode_split bs]
  rw [pyStripEq_append _ _ (b64NoPad_no_pad bs h)]
  unfold padToken urlsafe_b64decode
  exact b64decodeAux_noPad bs h

/-- C7 witness: a 3-byte token, whose stripped encoding has length 4 — the
four-`=` append case. -/
theorem transport_encoding_roundtrip_witness :
    (∀ b ∈ [1, 2, 3], b < 256) ∧
    urlsafe_b64decode (padToken (pyStripEq (urlsafe_b64encode [1, 2, 3]))) =
      some [1, 2, 3] :=
  ⟨by decide, transport_encoding_roundtrip [1, 2, 3] (by decide)⟩
